import Mathlib

/-!
# Verification of the supervisor state / lock layer

Shallow embedding of `src/supervisor/state.py` and `src/supervisor/lock.py`
(the `ouroboros_2` repository).  JSON values are modelled by the inductive
`JVal` (numbers as integers), Python dicts by insertion-ordered association
lists, the filesystem by explicit record states, and time by discrete ticks
(one tick = one back-off sleep of the corresponding polling loop).
-/

namespace Ouroboros

/-- JSON-compatible values (Python objects produced by `json.loads`).
Numbers are modelled as integers. -/
inductive JVal where
  | null : JVal
  | bool (b : Bool) : JVal
  | num (n : Int) : JVal
  | str (s : String) : JVal
  | arr (xs : List JVal) : JVal
  | obj (fields : List (String × JVal)) : JVal
deriving Repr

/-- A Python dict with string keys, as an insertion-ordered association list
(the representation used by `json.loads` for JSON objects). -/
abbrev Doc := List (String × JVal)

/-- `d.get(k)` / `k in d`: first binding of `k`, if any. -/
def lookup? (k : String) : Doc → Option JVal
  | [] => none
  | (k', v) :: rest => if k' = k then some v else lookup? k rest

/-- `d.setdefault(k, v)`: if `k` is absent insert `(k, v)` at the end
(Python dicts append new keys in insertion order), else leave `d` unchanged. -/
def setdefault (k : String) (v : JVal) (d : Doc) : Doc :=
  if (lookup? k d).isSome then d else d ++ [(k, v)]

/-- `d.pop(k, None)`: remove the binding of `k` (no-op when absent). -/
def popKey (k : String) (d : Doc) : Doc :=
  d.filter (fun kv => kv.1 ≠ k)

/-- The deprecated keys stripped by `ensure_state_defaults`
(state.py lines 139-141). -/
def legacyKeys : List String :=
  ["approvals", "idle_cursor", "idle_stats", "last_idle_task_at",
   "last_auto_review_at", "last_review_task_id", "session_daily_snapshot"]

/-- The required keys filled in by `ensure_state_defaults`. -/
def requiredKeys : List String :=
  ["created_at", "owner_id", "owner_chat_id", "tg_offset", "session_id",
   "current_branch", "current_sha", "last_owner_message_at",
   "last_evolution_task_at", "evolution_mode_enabled", "evolution_cycle",
   "evolution_consecutive_failures"]

/-- `ensure_state_defaults` (state.py lines 126-142).  The two
environment-dependent defaults — `datetime.now(...).isoformat()` and
`uuid.uuid4().hex` — are passed in as the parameters `nowIso` and
`freshUuid`; everything else is literal. -/
def ensure_state_defaults (nowIso freshUuid : String) (st : Doc) : Doc :=
  let st := setdefault "created_at" (.str nowIso) st
  let st := setdefault "owner_id" .null st
  let st := setdefault "owner_chat_id" .null st
  let st := setdefault "tg_offset" (.num 0) st
  let st := setdefault "session_id" (.str freshUuid) st
  let st := setdefault "current_branch" .null st
  let st := setdefault "current_sha" .null st
  let st := setdefault "last_owner_message_at" (.str "") st
  let st := setdefault "last_evolution_task_at" (.str "") st
  let st := setdefault "evolution_mode_enabled" (.bool false) st
  let st := setdefault "evolution_cycle" (.num 0) st
  let st := setdefault "evolution_consecutive_failures" (.num 0) st
  legacyKeys.foldl (fun d k => popKey k d) st

/-- `default_state_dict` (state.py lines 145-147): `ensure_state_defaults({})`. -/
def default_state_dict (nowIso freshUuid : String) : Doc :=
  ensure_state_defaults nowIso freshUuid []

/-- A document is fully defaulted: every required key is present and no
deprecated key occurs. -/
def isDefaulted (d : Doc) : Bool :=
  requiredKeys.all (fun k => (lookup? k d).isSome) &&
  legacyKeys.all (fun k => (lookup? k d).isNone)

/-- The documented default value of each required key
(`ensure_state_defaults`, state.py lines 127-138), in source order. -/
def stateDefaults (nowIso freshUuid : String) : Doc :=
  [("created_at", .str nowIso), ("owner_id", .null), ("owner_chat_id", .null),
   ("tg_offset", .num 0), ("session_id", .str freshUuid),
   ("current_branch", .null), ("current_sha", .null),
   ("last_owner_message_at", .str ""), ("last_evolution_task_at", .str ""),
   ("evolution_mode_enabled", .bool false), ("evolution_cycle", .num 0),
   ("evolution_consecutive_failures", .num 0)]

/-! ## Filesystem model: state files, atomic writes, load/save -/

/-- Bytes stored in an existing file: either text that does not parse as
JSON, or the serialization of a JSON value (`json.dumps` output, modelled
up to the parse/serialize round trip of the external `json` library). -/
inductive FText where
  | garbage : FText
  | jsonVal (v : JVal) : FText
deriving Repr

/-- A file slot on disk: missing, or present with some content. -/
inductive FileData where
  | missing : FileData
  | text (c : FText) : FileData
deriving Repr

/-- `json_load_file` (state.py lines 58-66): `None` when the file is
missing, unparsable, or parses to a non-dict; otherwise the parsed dict. -/
def json_load_file : FileData → Option Doc
  | .missing => none
  | .text .garbage => none
  | .text (.jsonVal (.obj d)) => some d
  | .text (.jsonVal _) => none

/-- The two state files (`STATE_PATH` and `STATE_LAST_GOOD_PATH`). -/
structure StateFS where
  primary : FileData
  lastGood : FileData
deriving Repr

/-- `atomic_write_text` (state.py lines 45-55): write the content to a
uniquely-named temp file in the same directory, fsync, then `os.replace`
over the target.  `failBeforeRename` injects an IO failure (e.g. disk
full) at any point before the rename; the temp-then-rename discipline
means the target then still holds its old content, so the target is the
all-or-nothing `Except`: an error surfaces to the caller and leaves the
target as it was. -/
def atomic_write_text (failBeforeRename : Bool) (content : FText) :
    Except Unit FileData :=
  if failBeforeRename then .error () else .ok (.text content)

/-- Result of a save: whether an exception was raised, and the resulting
contents of the two state files. -/
structure SaveResult where
  raised : Bool
  fs : StateFS
deriving Repr

/-- `_save_state_unlocked` (state.py lines 173-178): re-default the
document, serialize it once, then atomically write the payload to the
primary path and to the last-good path.  `f1`/`f2` inject a write failure
into the first/second `atomic_write_text` call; an exception propagates to
the caller, leaving any remaining writes undone. -/
def _save_state_unlocked (f1 f2 : Bool) (ts sid : String) (st : Doc)
    (fs : StateFS) : SaveResult :=
  let payload := FText.jsonVal (.obj (ensure_state_defaults ts sid st))
  match atomic_write_text f1 payload with
  | .error _ => { raised := true, fs := fs }
  | .ok p =>
    match atomic_write_text f2 payload with
    | .error _ => { raised := true, fs := { fs with primary := p } }
    | .ok g => { raised := false, fs := { primary := p, lastGood := g } }

/-- `_load_state_unlocked` (state.py lines 154-170): try the primary path;
if unreadable fall back to the last-good path (`recovered`); if both fail
synthesize `ensure_state_defaults(default_state_dict())` and persist it;
after a recovery, immediately re-persist.  `ts`/`sid` stand for the fresh
timestamp / uuid drawn by the defaulting step during this call. -/
def _load_state_unlocked (ts sid : String) (fs : StateFS) : Doc × StateFS :=
  match json_load_file fs.primary with
  | some stObj => (ensure_state_defaults ts sid stObj, fs)
  | none =>
    match json_load_file fs.lastGood with
    | some stObj =>
      let st := ensure_state_defaults ts sid stObj
      (st, (_save_state_unlocked false false ts sid st fs).fs)
    | none =>
      let st := ensure_state_defaults ts sid (default_state_dict ts sid)
      (st, (_save_state_unlocked false false ts sid st fs).fs)

/-! ## File locks

A lock path is modelled as `Option Nat`: `none` when the lock file is
absent, `some age` when it exists with the given age (`now - st_mtime`).
Time is discrete: one tick is one back-off sleep of the polling loop, and
a held lock ages one tick per sleep.  No concurrent lock activity is
modelled beyond the initial holder. -/

/-- `acquire_file_lock` (state.py lines 73-99) polling loop, fuelled by
the number of remaining iterations before `timeout_sec` elapses.  Each
iteration: `os.open(..., O_CREAT | O_EXCL)` succeeds iff the lock file is
absent (our lock is created with age 0); on `FileExistsError`, a lock
older than `stale_sec` is unlinked and the loop retries immediately,
otherwise the loop sleeps one tick.  Returns the acquired token (the fd)
and the final lock-file state. -/
def acquireFileLockGo (stale : Nat) : Nat → Option Nat → Option Unit × Option Nat
  | 0, l => (none, l)
  | Nat.succ _, none => (some (), some 0)
  | Nat.succ n, some age =>
    if stale < age then acquireFileLockGo stale (Nat.succ n) none
    else acquireFileLockGo stale n (some (age + 1))
termination_by fuel l => (fuel, l.elim 0 (fun _ => 1))
decreasing_by
  · apply Prod.Lex.right
    simp
  · apply Prod.Lex.left
    omega

/-- `acquire_file_lock` with `timeout_sec` expressed in ticks. -/
def acquire_file_lock (timeout stale : Nat) (l : Option Nat) :
    Option Unit × Option Nat :=
  acquireFileLockGo stale timeout l

/-- `timeout_sec = 4.0` at a 0.05 s back-off: 80 loop iterations. -/
def STATE_LOCK_TIMEOUT_TICKS : Nat := 80

/-- `stale_sec = 90.0` in 0.05 s ticks. -/
def STATE_LOCK_STALE_TICKS : Nat := 1800

/-- `acquire_git_lock` (lock.py lines 21-48) polling loop: same staleness
eviction, but a timeout raises `TimeoutError` (`.error`) instead of
returning `None`, and the back-off sleep is 0.5 s. -/
def acquireGitLockGo (stale : Nat) : Nat → Option Nat → Except Unit Unit × Option Nat
  | 0, l => (.error (), l)
  | Nat.succ _, none => (.ok (), some 0)
  | Nat.succ n, some age =>
    if stale < age then acquireGitLockGo stale (Nat.succ n) none
    else acquireGitLockGo stale n (some (age + 1))
termination_by fuel l => (fuel, l.elim 0 (fun _ => 1))
decreasing_by
  · apply Prod.Lex.right
    simp
  · apply Prod.Lex.left
    omega

/-- `acquire_git_lock` with `timeout_sec` expressed in ticks. -/
def acquire_git_lock (timeout stale : Nat) (l : Option Nat) :
    Except Unit Unit × Option Nat :=
  acquireGitLockGo stale timeout l

/-- `timeout_sec = 120` at a 0.5 s back-off: 240 loop iterations. -/
def GIT_LOCK_TIMEOUT_TICKS : Nat := 240

/-- `stale_sec = 600` in 0.5 s ticks. -/
def GIT_LOCK_STALE_TICKS : Nat := 1200

/-- `Path.unlink()` on the model filesystem: raises `FileNotFoundError`
(`.error`) when the file is absent. -/
def unlinkFile (l : Option Nat) : Except Unit (Option Nat) :=
  match l with
  | none => .error ()
  | some _ => .ok none

/-- `release_git_lock` (lock.py lines 51-56): unlink the lock path,
swallowing `FileNotFoundError`.  A result of `.error` would model an
exception escaping to the caller; the catch makes that impossible here. -/
def release_git_lock (l : Option Nat) : Except Unit (Option Nat) :=
  match unlinkFile l with
  | .ok l' => .ok l'
  | .error _ => .ok l

/-- `release_file_lock` (state.py lines 102-115): no-op when `lock_fd` is
`None`; otherwise close the fd, then unlink the lock path if it exists,
each step swallowing every exception. -/
def release_file_lock (fd : Option Unit) (l : Option Nat) :
    Except Unit (Option Nat) :=
  match fd with
  | none => .ok l
  | some _ =>
    match l with
    | none => .ok l
    | some _ =>
      match unlinkFile l with
      | .ok l' => .ok l'
      | .error _ => .ok l

/-! ## Public, lock-guarded load / save -/

/-- Outcome of `load_state`: the returned document, the resulting state
files, whether the state lock was successfully acquired before the file
operations ran, and the final lock-file state after release. -/
structure LoadStateResult where
  doc : Doc
  fs : StateFS
  lockHeld : Bool
  finalLock : Option Nat
deriving Repr

/-- `load_state` (state.py lines 181-186): acquire the state lock, run
`_load_state_unlocked`, release in `finally`.  `acquire_file_lock` can
return `None` on timeout; the body runs either way, which `lockHeld`
records. -/
def load_state (ts sid : String) (l : Option Nat) (fs : StateFS) :
    LoadStateResult :=
  let r := acquire_file_lock STATE_LOCK_TIMEOUT_TICKS STATE_LOCK_STALE_TICKS l
  let d := _load_state_unlocked ts sid fs
  let lf := match release_file_lock r.1 r.2 with
    | .ok lf => lf
    | .error _ => r.2
  { doc := d.1, fs := d.2, lockHeld := r.1.isSome, finalLock := lf }

/-- Outcome of `save_state`: raised flag and files as in `SaveResult`,
plus the lock bookkeeping of the public wrapper. -/
structure SaveStateResult where
  raised : Bool
  fs : StateFS
  lockHeld : Bool
  finalLock : Option Nat
deriving Repr

/-- `save_state` (state.py lines 189-194): acquire the state lock, run
`_save_state_unlocked`, release in `finally`. -/
def save_state (f1 f2 : Bool) (ts sid : String) (st : Doc) (l : Option Nat)
    (fs : StateFS) : SaveStateResult :=
  let r := acquire_file_lock STATE_LOCK_TIMEOUT_TICKS STATE_LOCK_STALE_TICKS l
  let s := _save_state_unlocked f1 f2 ts sid st fs
  let lf := match release_file_lock r.1 r.2 with
    | .ok lf => lf
    | .error _ => r.2
  { raised := s.raised, fs := s.fs, lockHeld := r.1.isSome, finalLock := lf }

/-! ## Chat-log rotation -/

/-- The files touched by `rotate_chat_log_if_needed`: the chat log
(`logs/chat.jsonl`, `none` when missing, else its contents, whose length
models `st_size`) and the archive directory (contents of the timestamped
archive files, in creation order). -/
structure ChatFS where
  chat : Option String
  archive : List String
deriving Repr, DecidableEq

/-- `rotate_chat_log_if_needed` (state.py lines 371-382): return if the
log is missing or `st_size < max_bytes`; otherwise copy its bytes to a
fresh timestamped archive file and truncate the log to empty. -/
def rotate_chat_log_if_needed (maxBytes : Nat) (fs : ChatFS) : ChatFS :=
  match fs.chat with
  | none => fs
  | some c =>
    if c.length < maxBytes then fs
    else { chat := some "", archive := fs.archive ++ [c] }

/-! ## Per-model usage aggregation (`model_breakdown`) -/

/-- One line of `logs/events.jsonl`, by its parse outcome: stripped-blank,
not valid JSON (`json.loads` raises `JSONDecodeError`), or parsed to a
JSON value. -/
inductive PLine where
  | blank : PLine
  | malformed : PLine
  | parsed (v : JVal) : PLine
deriving Repr

/-- The per-model accumulator created and updated by `model_breakdown`. -/
structure UsageStats where
  cost : Int
  calls : Int
  prompt_tokens : Int
  completion_tokens : Int
  cached_tokens : Int
deriving Repr, DecidableEq

mutual

/-- Python structural equality of JSON values, used for dict-key lookup
(`model not in breakdown`). -/
def jvalBEq : JVal → JVal → Bool
  | .null, .null => true
  | .bool a, .bool b => a == b
  | .num a, .num b => a == b
  | .str a, .str b => a == b
  | .arr a, .arr b => jvalBEqList a b
  | .obj a, .obj b => jvalBEqFields a b
  | _, _ => false

/-- Elementwise `jvalBEq` on JSON arrays. -/
def jvalBEqList : List JVal → List JVal → Bool
  | [], [] => true
  | a :: as', b :: bs' => jvalBEq a b && jvalBEqList as' bs'
  | _, _ => false

/-- Elementwise `jvalBEq` on JSON object fields. -/
def jvalBEqFields : List (String × JVal) → List (String × JVal) → Bool
  | [], [] => true
  | (ka, va) :: as', (kb, vb) :: bs' =>
    ka == kb && jvalBEq va vb && jvalBEqFields as' bs'
  | _, _ => false

end

/-- Python truthiness of a JSON value (`or` / `if not model`). -/
def pyTruthy : JVal → Bool
  | .null => false
  | .bool b => b
  | .num n => n != 0
  | .str s => s != ""
  | .arr xs => !xs.isEmpty
  | .obj fs => !fs.isEmpty

/-- `float(v)` / `int(v)` on a JSON value, with numbers modelled as
integers: numbers and booleans convert, numeric strings parse, anything
else (`None`, lists, dicts, non-numeric strings) raises
`ValueError`/`TypeError` (`none`). -/
def pyNum : JVal → Option Int
  | .num n => some n
  | .bool b => some (if b then 1 else 0)
  | .str s => s.toInt?
  | _ => none

/-- `int(event.get(k, 0) or 0)` (state.py lines 279-281): a missing or
falsy value counts as 0, otherwise convert, propagating the conversion
failure. -/
def tokenField (e : Doc) (k : String) : Option Int :=
  let v := (lookup? k e).getD (.num 0)
  if pyTruthy v then pyNum v else some 0

/-- Cost extraction (state.py lines 272-276): `float(event["cost"])` when
the key is present, else `float(event["usage"].get("cost", 0))` when
`usage` is a dict, else `0.0`. -/
def costField (e : Doc) : Option Int :=
  match lookup? "cost" e with
  | some v => pyNum v
  | none =>
    match lookup? "usage" e with
    | some (.obj u) => pyNum ((lookup? "cost" u).getD (.num 0))
    | _ => some 0

/-- `event.get("type") != "llm_usage"` negated (state.py line 264): the
comparison is true only for the exact string value. -/
def typeIsLlmUsage (e : Doc) : Bool :=
  match lookup? "type" e with
  | some (.str s) => s == "llm_usage"
  | _ => false

/-- `event.get("model") or "unknown"` (state.py lines 267-269). -/
def modelKey (e : Doc) : JVal :=
  let m := (lookup? "model" e).getD .null
  if pyTruthy m then m else .str "unknown"

/-- The running totals, keyed by the (arbitrary JSON) model value, in
first-seen order like a Python dict. -/
abbrev Breakdown := List (JVal × UsageStats)

/-- `breakdown[model] = zeros if absent` followed by the five `+=`
updates (state.py lines 283-290). -/
def updateBreakdown (key : JVal) (c p ct cc : Int) : Breakdown → Breakdown
  | [] => [(key, { cost := c, calls := 1, prompt_tokens := p,
                   completion_tokens := ct, cached_tokens := cc })]
  | (k, s) :: rest =>
    if jvalBEq k key then
      (k, { cost := s.cost + c, calls := s.calls + 1,
            prompt_tokens := s.prompt_tokens + p,
            completion_tokens := s.completion_tokens + ct,
            cached_tokens := s.cached_tokens + cc }) :: rest
    else (k, s) :: updateBreakdown key c p ct cc rest

/-- The per-event body (state.py lines 264-290) once `event` is known to
be a dict: non-usage events are skipped (`continue`), a field-conversion
`ValueError`/`TypeError` abandons just this line (caught by the inner
`except`, state.py lines 292-293), and a usage event is accumulated. -/
def processUsageEvent (e : Doc) (b : Breakdown) : Breakdown :=
  if typeIsLlmUsage e then
    match costField e, tokenField e "prompt_tokens",
        tokenField e "completion_tokens", tokenField e "cached_tokens" with
    | some c, some p, some ct, some cc =>
      updateBreakdown (modelKey e) c p ct cc b
    | _, _, _, _ => b
  else b

/-- Process one successfully parsed line (state.py lines 263-293).
`none` models an `AttributeError` from `event.get` on a non-dict value:
it is not in the `except (JSONDecodeError, ValueError, TypeError)` tuple,
so it escapes the per-line handler. -/
def stepParsed (v : JVal) (b : Breakdown) : Option Breakdown :=
  match v with
  | .obj e => some (processUsageEvent e b)
  | _ => none

/-- The line loop of `model_breakdown` (state.py lines 257-293): blank and
unparsable lines are skipped; a parsed line is processed by `stepParsed`;
an escaping `AttributeError` is caught by the outer `except Exception`
(state.py lines 294-295), which abandons the loop and returns the totals
accumulated so far. -/
def breakdownGo : List PLine → Breakdown → Breakdown
  | [], b => b
  | l :: rest, b =>
    match l with
    | .blank => breakdownGo rest b
    | .malformed => breakdownGo rest b
    | .parsed v =>
      match stepParsed v b with
      | some b' => breakdownGo rest b'
      | none => b

/-- `model_breakdown` (state.py lines 242-297) over the lines of
`logs/events.jsonl` (a missing log file yields the empty line list). -/
def model_breakdown (lines : List PLine) : Breakdown :=
  breakdownGo lines []

/-- A line that parses to a JSON object whose `type` is `llm_usage`. -/
def isUsageLine : PLine → Bool
  | .parsed (.obj e) => typeIsLlmUsage e
  | _ => false

/-- A line that, when parsed, is a JSON object (so `event.get` cannot
raise on it). -/
def parsesToDict : PLine → Bool
  | .parsed (.obj _) => true
  | .parsed _ => false
  | _ => true

/-! ## Status text (`status_text`) -/

/-- A worker slot as `status_text` sees it: `getattr(w, 'wid', ...)` and
`getattr(w, 'busy_task_id', None)`. -/
structure Worker where
  wid : Int
  busy_task_id : Option String
deriving Repr, DecidableEq

/-- Stable descending insertion by `calls`, modelling
`sorted(models.items(), key=lambda x: x[1]["calls"], reverse=True)`. -/
def insertByCalls (x : JVal × UsageStats) :
    List (JVal × UsageStats) → List (JVal × UsageStats)
  | [] => [x]
  | y :: rest =>
    if x.2.calls > y.2.calls then x :: y :: rest else y :: insertByCalls x rest

/-- Sort a breakdown by call count, descending (stable). -/
def sortByCallsDesc : List (JVal × UsageStats) → List (JVal × UsageStats)
  | [] => []
  | x :: rest => insertByCalls x (sortByCallsDesc rest)

/-- One output line of `status_text` (state.py lines 309-368), as the
constructor for its format string applied to the data it interpolates.
`queueWarning` renders as the literal
`"queue_warning: running>0 while busy=0"` (state.py line 349); every
other constructor renders with its own distinct fixed prefix. -/
inductive StatusLine where
  | ownerId (v : Option JVal)
  | sessionId (v : Option JVal)
  | version (branch sha : Option JVal)
  | workersLine (total busy : Nat)
  | pendingLine (n : Nat)
  | runningLine (n : Nat)
  | pendingQueue (tasks : List JVal)
  | runningIds (ids : List String)
  | busyLine (ws : List Worker)
  | runningDetailsHeader
  | runningDetail (taskId : String) (meta : JVal)
  | queueWarning
  | modelBreakdownHeader
  | modelLine (name : JVal) (stats : UsageStats)
  | evolution (enabled cycle : Option JVal)
  | lastOwnerMessageAt (v : Option JVal)
  | timeouts (soft hard : Int)

/-- The rendering of `StatusLine.queueWarning` (state.py line 349). -/
def queueWarningText : String := "queue_warning: running>0 while busy=0"

/-- `busy_count` (state.py line 318): workers whose `busy_task_id` is not
`None`. -/
def busyCount (workers : List Worker) : Nat :=
  (workers.filter (fun w => w.busy_task_id.isSome)).length

/-- The lines built by `status_text` (state.py lines 309-368), in source
order.  `st` and `models` stand for the values the source obtains from
`load_state()` and `model_breakdown(st)`; `workers`, `pending`, `running`
and the two timeouts are the function's parameters.  Note the `busy:`
line filters by Python truthiness of `busy_task_id` while `busy_count`
tests `is not None`. -/
def statusLines (st : Doc) (models : Breakdown) (workers : List Worker)
    (pending : List JVal) (running : List (String × JVal))
    (softTimeout hardTimeout : Int) : List StatusLine :=
  let busy_count := busyCount workers
  let base := [StatusLine.ownerId (lookup? "owner_id" st),
    StatusLine.sessionId (lookup? "session_id" st),
    StatusLine.version (lookup? "current_branch" st) (lookup? "current_sha" st),
    StatusLine.workersLine workers.length busy_count,
    StatusLine.pendingLine pending.length,
    StatusLine.runningLine running.length]
  let l1 := if pending.isEmpty then [] else
    [StatusLine.pendingQueue (pending.take 10)]
  let l2 := if running.isEmpty then [] else
    [StatusLine.runningIds ((running.map Prod.fst).take 10)]
  let busy := workers.filter (fun w =>
    match w.busy_task_id with
    | some s => s != ""
    | none => false)
  let l3 := if busy.isEmpty then [] else [StatusLine.busyLine busy]
  let l4 := if running.isEmpty then [] else
    StatusLine.runningDetailsHeader ::
      (running.take 10).map (fun p => StatusLine.runningDetail p.1 p.2)
  let l5 := if !running.isEmpty && busy_count == 0 then
    [StatusLine.queueWarning] else []
  let l6 := if models.isEmpty then [] else
    StatusLine.modelBreakdownHeader ::
      (sortByCallsDesc models).filterMap (fun p =>
        if p.2.calls > 0 then some (StatusLine.modelLine p.1 p.2) else none)
  let tail := [StatusLine.evolution (lookup? "evolution_mode_enabled" st)
      (lookup? "evolution_cycle" st),
    StatusLine.lastOwnerMessageAt (lookup? "last_owner_message_at" st),
    StatusLine.timeouts softTimeout hardTimeout]
  base ++ l1 ++ l2 ++ l3 ++ l4 ++ l5 ++ l6 ++ tail

-- Basic lemmas about the dict operations.

theorem lookup_append_single_self (k : String) (v : JVal) (d : Doc) :
    (lookup? k (d ++ [(k, v)])).isSome := by
  induction d with
  | nil => simp [lookup?]
  | cons kv rest ih =>
    by_cases hk : kv.1 = k <;> simp [lookup?, hk, ih]

theorem lookup_append_single_of_ne (k k' : String) (v : JVal) (d : Doc)
    (h : k' ≠ k) : lookup? k (d ++ [(k', v)]) = lookup? k d := by
  induction d with
  | nil => simp [lookup?, h]
  | cons kv rest ih =>
    by_cases hk : kv.1 = k <;> simp [lookup?, hk, ih]

theorem lookup_setdefault_self (k : String) (v : JVal) (d : Doc) :
    (lookup? k (setdefault k v d)).isSome := by
  unfold setdefault
  by_cases h : (lookup? k d).isSome
  · simp [h]
  · simpa [h] using lookup_append_single_self k v d

theorem lookup_setdefault_of_ne (k k' : String) (v : JVal) (d : Doc)
    (h : k' ≠ k) : lookup? k (setdefault k' v d) = lookup? k d := by
  unfold setdefault
  by_cases hs : (lookup? k' d).isSome
  · simp [hs]
  · simpa [hs] using lookup_append_single_of_ne k k' v d h

theorem setdefault_of_isSome (k : String) (v : JVal) (d : Doc)
    (h : (lookup? k d).isSome) : setdefault k v d = d := by
  simp [setdefault, h]

theorem lookup_popKey_self (k : String) (d : Doc) :
    lookup? k (popKey k d) = none := by
  induction d with
  | nil => rfl
  | cons kv rest ih =>
    unfold popKey at *
    by_cases hk : kv.1 = k
    · simpa [List.filter, hk] using ih
    · simpa [List.filter, hk, lookup?] using ih

theorem lookup_popKey_of_ne (k k' : String) (d : Doc) (h : k' ≠ k) :
    lookup? k (popKey k' d) = lookup? k d := by
  induction d with
  | nil => rfl
  | cons kv rest ih =>
    by_cases hk' : kv.1 = k'
    · have hkk : kv.1 ≠ k := by rw [hk']; exact h
      simp only [popKey, List.filter_cons] at ih ⊢
      simp only [hk', hkk, lookup?, if_false, decide_not, decide_True,
        Bool.not_true, ne_eq, ite_false]
      simpa [h] using ih
    · by_cases hkk : kv.1 = k
      · have h2 : k ≠ k' := Ne.symm h
        simp [popKey, List.filter_cons, hk', hkk, h2, lookup?]
      · simp only [popKey, List.filter_cons] at ih ⊢
        simp only [ne_eq, hk', decide_False, Bool.not_false, decide_not,
          if_true, lookup?, hkk, if_false, ite_true, ite_false]
        simpa [hkk] using ih

theorem popKey_of_none (k : String) (d : Doc) (h : lookup? k d = none) :
    popKey k d = d := by
  induction d with
  | nil => rfl
  | cons kv rest ih =>
    unfold lookup? at h
    by_cases hk : kv.1 = k
    · simp [hk] at h
    · simp only [hk, if_false] at h
      simp [popKey, List.filter, hk, decide_eq_true_eq, ih h,
        popKey] at ih ⊢
      exact ih h

theorem lookup_setdefault_self_of_none (k : String) (v : JVal) (d : Doc)
    (h : lookup? k d = none) : lookup? k (setdefault k v d) = some v := by
  unfold setdefault
  rw [h]
  simp only [Option.isSome_none, if_false, Bool.false_eq_true]
  induction d with
  | nil => simp [lookup?]
  | cons kv rest ih =>
    unfold lookup? at h ⊢
    by_cases hk : kv.1 = k
    · simp [hk] at h
    · simp only [hk, if_false, List.cons_append] at h ⊢
      exact ih h

theorem isDefaulted_ensure (ts sid : String) (st : Doc) :
    isDefaulted (ensure_state_defaults ts sid st) = true := by
  have hreq : ∀ k ∈ requiredKeys,
      (lookup? k (ensure_state_defaults ts sid st)).isSome = true := by
    intro k hk
    unfold requiredKeys at hk
    unfold ensure_state_defaults legacyKeys
    simp only [List.foldl_cons, List.foldl_nil]
    fin_cases hk <;>
      simp (disch := decide) only [lookup_popKey_of_ne,
        lookup_setdefault_of_ne, lookup_setdefault_self]
  have hleg : ∀ k ∈ legacyKeys,
      (lookup? k (ensure_state_defaults ts sid st)).isNone = true := by
    intro k hk
    unfold legacyKeys at hk
    unfold ensure_state_defaults legacyKeys
    simp only [List.foldl_cons, List.foldl_nil]
    fin_cases hk <;>
      simp (disch := decide) only [lookup_popKey_of_ne, lookup_popKey_self,
        lookup_setdefault_of_ne, Option.isNone_none]
  simp only [isDefaulted, Bool.and_eq_true, List.all_eq_true]
  exact ⟨hreq, hleg⟩

theorem ensure_of_defaulted (ts sid : String) (d : Doc)
    (h : isDefaulted d = true) : ensure_state_defaults ts sid d = d := by
  unfold isDefaulted requiredKeys legacyKeys at h
  simp only [List.all_cons, List.all_nil, Bool.and_eq_true, Bool.and_true,
    Option.isNone_iff_eq_none] at h
  obtain ⟨⟨h1, h2, h3, h4, h5, h6, h7, h8, h9, h10, h11, h12⟩,
    g1, g2, g3, g4, g5, g6, g7⟩ := h
  unfold ensure_state_defaults legacyKeys
  simp only [List.foldl_cons, List.foldl_nil]
  rw [setdefault_of_isSome _ _ _ h1, setdefault_of_isSome _ _ _ h2,
    setdefault_of_isSome _ _ _ h3, setdefault_of_isSome _ _ _ h4,
    setdefault_of_isSome _ _ _ h5, setdefault_of_isSome _ _ _ h6,
    setdefault_of_isSome _ _ _ h7, setdefault_of_isSome _ _ _ h8,
    setdefault_of_isSome _ _ _ h9, setdefault_of_isSome _ _ _ h10,
    setdefault_of_isSome _ _ _ h11, setdefault_of_isSome _ _ _ h12,
    popKey_of_none _ _ g1, popKey_of_none _ _ g2, popKey_of_none _ _ g3,
    popKey_of_none _ _ g4, popKey_of_none _ _ g5, popKey_of_none _ _ g6,
    popKey_of_none _ _ g7]

theorem ensure_fills_defaults (ts sid : String) (st : Doc) (k : String)
    (v : JVal) (hmem : (k, v) ∈ stateDefaults ts sid)
    (hmiss : lookup? k st = none) :
    lookup? k (ensure_state_defaults ts sid st) = some v := by
  unfold stateDefaults at hmem
  unfold ensure_state_defaults legacyKeys
  simp only [List.foldl_cons, List.foldl_nil]
  simp only [List.mem_cons, List.not_mem_nil, or_false, Prod.mk.injEq] at hmem
  rcases hmem with hkv | hkv | hkv | hkv | hkv | hkv |
      hkv | hkv | hkv | hkv | hkv | hkv <;>
  · obtain ⟨rfl, rfl⟩ := hkv
    simp (disch := decide) only [lookup_popKey_of_ne]
    try simp (disch := decide) only [lookup_setdefault_of_ne]
    rw [lookup_setdefault_self_of_none]
    try simp (disch := decide) only [lookup_setdefault_of_ne]
    exact hmiss

-- Lock-acquisition behaviour.

theorem acquireFileLockGo_fresh (stale : Nat) :
    ∀ fuel a, a + fuel ≤ stale →
      acquireFileLockGo stale fuel (some a) = (none, some (a + fuel)) := by
  intro fuel
  induction fuel with
  | zero => intro a _; simp [acquireFileLockGo]
  | succ n ih =>
    intro a h
    have h1 : ¬ stale < a := by omega
    have step : acquireFileLockGo stale (n + 1) (some a) =
        acquireFileLockGo stale n (some (a + 1)) := by
      simp [acquireFileLockGo, h1]
    rw [step, ih (a + 1) (by omega)]
    have : a + 1 + n = a + (n + 1) := by omega
    rw [this]

theorem acquireFileLockGo_stale (stale fuel a : Nat) (hs : stale < a)
    (hf : 0 < fuel) :
    acquireFileLockGo stale fuel (some a) = (some (), some 0) := by
  cases fuel with
  | zero => omega
  | succ n => simp [acquireFileLockGo, hs]

theorem acquireFileLockGo_success_lock (stale : Nat) :
    ∀ fuel l, (acquireFileLockGo stale fuel l).1.isSome →
      (acquireFileLockGo stale fuel l).2 = some 0 := by
  intro fuel
  induction fuel with
  | zero => intro l h; simp [acquireFileLockGo] at h
  | succ n ih =>
    intro l h
    match l with
    | none => simp [acquireFileLockGo]
    | some age =>
      by_cases hs : stale < age
      · simp [acquireFileLockGo, hs]
      · have step : acquireFileLockGo stale (n + 1) (some age) =
            acquireFileLockGo stale n (some (age + 1)) := by
          simp [acquireFileLockGo, hs]
        rw [step] at h ⊢
        exact ih _ h

theorem acquireGitLockGo_fresh (stale : Nat) :
    ∀ fuel a, a + fuel ≤ stale →
      acquireGitLockGo stale fuel (some a) = (.error (), some (a + fuel)) := by
  intro fuel
  induction fuel with
  | zero => intro a _; simp [acquireGitLockGo]
  | succ n ih =>
    intro a h
    have h1 : ¬ stale < a := by omega
    have step : acquireGitLockGo stale (n + 1) (some a) =
        acquireGitLockGo stale n (some (a + 1)) := by
      simp [acquireGitLockGo, h1]
    rw [step, ih (a + 1) (by omega)]
    have : a + 1 + n = a + (n + 1) := by omega
    rw [this]

theorem acquireGitLockGo_stale (stale fuel a : Nat) (hs : stale < a)
    (hf : 0 < fuel) :
    acquireGitLockGo stale fuel (some a) = (.ok (), some 0) := by
  cases fuel with
  | zero => omega
  | succ n => simp [acquireGitLockGo, hs]

/-- C3: acquiring a lock path held by a fresh (non-stale) lock — one whose
age stays within `stale` for the whole `timeout` window — backs off and
retries each tick until the timeout elapses, then fails (returns `None`
for the state lock, raises `TimeoutError` for the git lock) with the lock
file still present, never deleted; acquiring a lock already older than
`stale` deletes it, retries immediately without sleeping, and succeeds by
eviction, leaving the caller holding a fresh lock. -/
theorem claim_C3_lease_lock (timeout stale a : Nat) :
    (a + timeout ≤ stale →
      acquire_file_lock timeout stale (some a) = (none, some (a + timeout)) ∧
      acquire_git_lock timeout stale (some a) = (.error (), some (a + timeout)))
    ∧ (stale < a → 0 < timeout →
      acquire_file_lock timeout stale (some a) = (some (), some 0) ∧
      acquire_git_lock timeout stale (some a) = (.ok (), some 0)) := by
  refine ⟨fun h => ⟨?_, ?_⟩, fun hs hf => ⟨?_, ?_⟩⟩
  · exact acquireFileLockGo_fresh stale timeout a h
  · exact acquireGitLockGo_fresh stale timeout a h
  · exact acquireFileLockGo_stale stale timeout a hs hf
  · exact acquireGitLockGo_stale stale timeout a hs hf

/-- Witness for C3 at concrete inputs: a fresh lock of age 0 with a
2-tick timeout and staleness 5 times out leaving the lock aged 2; a lock
of age 6 is evicted and acquisition succeeds. -/
theorem claim_C3_lease_lock_witness :
    (acquire_file_lock 2 5 (some 0) = (none, some 2) ∧
      acquire_git_lock 2 5 (some 0) = (.error (), some 2)) ∧
    (acquire_file_lock 2 5 (some 6) = (some (), some 0) ∧
      acquire_git_lock 2 5 (some 6) = (.ok (), some 0)) := by
  constructor
  · simpa using (claim_C3_lease_lock 2 5 0).1 (by norm_num)
  · simpa using (claim_C3_lease_lock 2 5 6).2 (by norm_num) (by norm_num)

/-- C6: lock release is idempotent and total: releasing when the lock
file no longer exists does not raise (`.ok`), for both the git lock and
the state lock, and release never lets an exception escape at all. -/
theorem claim_C6_release_idempotent :
    release_git_lock none = .ok none
    ∧ (∀ fd, release_file_lock fd none = .ok none)
    ∧ (∀ l, ∃ l', release_git_lock l = .ok l')
    ∧ (∀ fd l, ∃ l', release_file_lock fd l = .ok l') := by
  refine ⟨rfl, ?_, ?_, ?_⟩
  · intro fd; cases fd <;> rfl
  · intro l; cases l <;> exact ⟨_, rfl⟩
  · intro fd l; cases fd <;> cases l <;> exact ⟨_, rfl⟩

-- Chat-log rotation.

/-- C8 counterexample: with `max_bytes = 1` and a 1-byte log, the log's
size does not exceed the threshold, so the claim says nothing is changed;
the code (`if chat.stat().st_size < max_bytes: return`) rotates. -/
theorem counterexample_C8 :
    rotate_chat_log_if_needed 1 { chat := some "a", archive := [] } ≠
      { chat := some "a", archive := [] } := by
  decide

/-- C8 (amended): rotation is triggered exactly when the log exists and
its size is **at least** `max_bytes` (the code keeps the log only while
`st_size < max_bytes`): at or above the threshold the contents move to a
fresh archive entry and the log restarts empty; strictly below it, or
when the log is missing, nothing changes. -/
theorem claim_C8_rotation (maxBytes : Nat) (fs : ChatFS) :
    (∀ c, fs.chat = some c → maxBytes ≤ c.length →
      rotate_chat_log_if_needed maxBytes fs =
        { chat := some "", archive := fs.archive ++ [c] })
    ∧ (∀ c, fs.chat = some c → c.length < maxBytes →
      rotate_chat_log_if_needed maxBytes fs = fs)
    ∧ (fs.chat = none → rotate_chat_log_if_needed maxBytes fs = fs) := by
  refine ⟨?_, ?_, ?_⟩
  · intro c h1 h2
    simp [rotate_chat_log_if_needed, h1, Nat.not_lt.mpr h2]
  · intro c h1 h2
    simp [rotate_chat_log_if_needed, h1, h2]
  · intro h1
    simp [rotate_chat_log_if_needed, h1]

/-- Witness for C8 at concrete inputs: a 1-byte log rotates at threshold
1; an empty log does not. -/
theorem claim_C8_rotation_witness :
    rotate_chat_log_if_needed 1 { chat := some "a", archive := [] } =
      { chat := some "", archive := ["a"] }
    ∧ rotate_chat_log_if_needed 1 { chat := some "", archive := [] } =
      { chat := some "", archive := [] } := by
  constructor
  · simpa using (claim_C8_rotation 1 { chat := some "a", archive := [] }).1
      "a" rfl (by decide)
  · exact (claim_C8_rotation 1 { chat := some "", archive := [] }).2.1
      "" rfl (by decide)

-- The migration step (C4).

/-- C4: the defaulting/migration step is idempotent — applying
`ensure_state_defaults` to its own output changes nothing, even with
different freshly drawn timestamp/uuid defaults — and its output always
has every required field present and no deprecated key; a required field
missing from the input is filled with exactly its documented default. -/
theorem claim_C4_migration_idempotent (ts sid ts' sid' : String) (st : Doc) :
    ensure_state_defaults ts' sid' (ensure_state_defaults ts sid st) =
      ensure_state_defaults ts sid st
    ∧ isDefaulted (ensure_state_defaults ts sid st) = true
    ∧ (∀ k v, (k, v) ∈ stateDefaults ts sid → lookup? k st = none →
        lookup? k (ensure_state_defaults ts sid st) = some v) :=
  ⟨ensure_of_defaulted ts' sid' _ (isDefaulted_ensure ts sid st),
    isDefaulted_ensure ts sid st,
    fun k v h1 h2 => ensure_fills_defaults ts sid st k v h1 h2⟩

/-- Witness for C4 at a concrete document: a dict carrying only
`owner_id` gets `tg_offset` filled with `0`, and re-migrating the result
is a no-op. -/
theorem claim_C4_migration_idempotent_witness :
    lookup? "tg_offset"
      (ensure_state_defaults "t" "u" [("owner_id", JVal.str "x")]) =
      some (JVal.num 0)
    ∧ ensure_state_defaults "t2" "u2"
        (ensure_state_defaults "t" "u" [("owner_id", JVal.str "x")]) =
      ensure_state_defaults "t" "u" [("owner_id", JVal.str "x")] :=
  ⟨(claim_C4_migration_idempotent "t" "u" "t" "u"
      [("owner_id", JVal.str "x")]).2.2 "tg_offset" (JVal.num 0)
      (by simp [stateDefaults]) rfl,
    (claim_C4_migration_idempotent "t" "u" "t2" "u2"
      [("owner_id", JVal.str "x")]).1⟩

-- Saving (C2, C10).

/-- C2: `save_state` re-defaults/migrates the document, serializes it
once, and writes it to the primary and last-good paths through the
temp-file/fsync/atomic-rename discipline (`atomic_write_text`).  If the
write fails before the rename of the primary (`f1`), the error is
surfaced (`raised`) and the previously persisted primary is untouched;
with no failure both paths end up holding the serialized migrated
document; and in every case the primary is all-or-nothing — either its
old content or the complete new payload, never a partial write. -/
theorem claim_C2_save_atomic (f1 f2 : Bool) (ts sid : String) (st : Doc)
    (l : Option Nat) (fs : StateFS) :
    (f1 = true → (save_state f1 f2 ts sid st l fs).raised = true ∧
      (save_state f1 f2 ts sid st l fs).fs = fs)
    ∧ (f1 = false → f2 = false →
      (save_state f1 f2 ts sid st l fs).raised = false ∧
      (save_state f1 f2 ts sid st l fs).fs.primary =
        .text (.jsonVal (.obj (ensure_state_defaults ts sid st))) ∧
      (save_state f1 f2 ts sid st l fs).fs.lastGood =
        .text (.jsonVal (.obj (ensure_state_defaults ts sid st))))
    ∧ ((save_state f1 f2 ts sid st l fs).fs.primary = fs.primary ∨
      (save_state f1 f2 ts sid st l fs).fs.primary =
        .text (.jsonVal (.obj (ensure_state_defaults ts sid st)))) := by
  cases f1 <;> cases f2 <;>
    simp [save_state, _save_state_unlocked, atomic_write_text]

/-- Witness for C2 at concrete inputs: an injected write failure before
the primary rename leaves both state files missing and surfaces the
error; a failure-free save persists the defaulted empty document. -/
theorem claim_C2_save_atomic_witness :
    ((save_state true false "t" "u" [] none
        { primary := .missing, lastGood := .missing }).raised = true ∧
      (save_state true false "t" "u" [] none
        { primary := .missing, lastGood := .missing }).fs =
        { primary := .missing, lastGood := .missing })
    ∧ (save_state false false "t" "u" [] none
        { primary := .missing, lastGood := .missing }).raised = false :=
  ⟨(claim_C2_save_atomic true false "t" "u" [] none
      { primary := .missing, lastGood := .missing }).1 rfl,
    ((claim_C2_save_atomic false false "t" "u" [] none
      { primary := .missing, lastGood := .missing }).2.1 rfl rfl).1⟩

/-- C10: every document persisted by a successful `save_state` is itself
fully defaulted: the save path re-applies `ensure_state_defaults` before
serializing, so the primary and last-good files hold identical serialized
content in which every required field is present and no deprecated key
occurs, whatever the caller passed. -/
theorem claim_C10_saved_doc_defaulted (ts sid : String) (st : Doc)
    (l : Option Nat) (fs : StateFS) :
    (save_state false false ts sid st l fs).fs.primary =
      .text (.jsonVal (.obj (ensure_state_defaults ts sid st)))
    ∧ (save_state false false ts sid st l fs).fs.lastGood =
      (save_state false false ts sid st l fs).fs.primary
    ∧ isDefaulted (ensure_state_defaults ts sid st) = true := by
  refine ⟨?_, ?_, isDefaulted_ensure ts sid st⟩ <;>
    simp [save_state, _save_state_unlocked, atomic_write_text]

-- Loading and recovery (C1).

/-- C1: for every filesystem configuration, `load_state` returns a fully
defaulted document (it never fails).  If the primary state file is
missing/unparsable and the last-good file parses, it returns the migrated
last-good contents and immediately re-persists them, healing the primary
(and last-good stays identical to it); if both are unreadable it
synthesizes a fresh defaulted document and persists it as the new
primary. -/
theorem claim_C1_load_self_healing (ts sid : String) (l : Option Nat)
    (fs : StateFS) :
    isDefaulted (load_state ts sid l fs).doc = true
    ∧ (∀ st0, json_load_file fs.primary = none →
        json_load_file fs.lastGood = some st0 →
        (load_state ts sid l fs).doc = ensure_state_defaults ts sid st0 ∧
        (load_state ts sid l fs).fs.primary =
          .text (.jsonVal (.obj (ensure_state_defaults ts sid st0))) ∧
        (load_state ts sid l fs).fs.lastGood =
          (load_state ts sid l fs).fs.primary)
    ∧ (json_load_file fs.primary = none → json_load_file fs.lastGood = none →
        (load_state ts sid l fs).doc =
          ensure_state_defaults ts sid (default_state_dict ts sid) ∧
        (load_state ts sid l fs).fs.primary =
          .text (.jsonVal (.obj ((load_state ts sid l fs).doc)))) := by
  have hE : ∀ d : Doc,
      ensure_state_defaults ts sid (ensure_state_defaults ts sid d) =
        ensure_state_defaults ts sid d :=
    fun d => ensure_of_defaulted ts sid _ (isDefaulted_ensure ts sid d)
  rcases hp : json_load_file fs.primary with _ | st0
  · rcases hg : json_load_file fs.lastGood with _ | st0
    · refine ⟨?_, ?_, fun _ _ => ⟨?_, ?_⟩⟩
      · simp [load_state, _load_state_unlocked, hp, hg, isDefaulted_ensure]
      · intro st0 _ hc
        simp at hc
      · simp [load_state, _load_state_unlocked, hp, hg]
      · simp [load_state, _load_state_unlocked, hp, hg,
          _save_state_unlocked, atomic_write_text, hE]
    · refine ⟨?_, ?_, ?_⟩
      · simp [load_state, _load_state_unlocked, hp, hg, isDefaulted_ensure]
      · intro st1 _ hs
        cases hs
        refine ⟨?_, ?_, ?_⟩ <;>
          simp [load_state, _load_state_unlocked, hp, hg,
            _save_state_unlocked, atomic_write_text, hE]
      · intro _ hc
        simp at hc
  · refine ⟨?_, ?_, ?_⟩
    · simp [load_state, _load_state_unlocked, hp, isDefaulted_ensure]
    · intro st1 hc _
      simp at hc
    · intro hc _
      simp at hc

/-- Witness for C1 at concrete inputs: with a missing primary and a
readable empty-dict last-good file, `load_state` returns the migrated
last-good document and heals the primary; with both files missing it
persists a fresh defaulted document. -/
theorem claim_C1_load_self_healing_witness :
    ((load_state "t" "u" none
        { primary := .missing, lastGood := .text (.jsonVal (.obj [])) }).doc =
      ensure_state_defaults "t" "u" []
    ∧ (load_state "t" "u" none
        { primary := .missing, lastGood := .text (.jsonVal (.obj [])) }).fs.primary =
      .text (.jsonVal (.obj (ensure_state_defaults "t" "u" []))))
    ∧ (load_state "t" "u" none
        { primary := .missing, lastGood := .missing }).fs.primary =
      .text (.jsonVal (.obj ((load_state "t" "u" none
        { primary := .missing, lastGood := .missing }).doc))) := by
  refine ⟨⟨?_, ?_⟩, ?_⟩
  · exact ((claim_C1_load_self_healing "t" "u" none
      { primary := .missing, lastGood := .text (.jsonVal (.obj [])) }).2.1
      [] rfl rfl).1
  · exact ((claim_C1_load_self_healing "t" "u" none
      { primary := .missing, lastGood := .text (.jsonVal (.obj [])) }).2.1
      [] rfl rfl).2.1
  · exact ((claim_C1_load_self_healing "t" "u" none
      { primary := .missing, lastGood := .missing }).2.2 rfl rfl).2

-- Lock-guarding of the public operations (C5).

/-- C5 counterexample: with a fresh foreign lock (age 0) held for the
whole 4 s timeout window, `acquire_file_lock` returns `None` — yet
`load_state` still performs its reads and writes: it heals the missing
primary without ever holding the state lock.  This falsifies "every read
or write … happens only while the state lock has been successfully
acquired". -/
theorem counterexample_C5 :
    (load_state "t" "u" (some 0)
      { primary := .missing, lastGood := .missing }).lockHeld = false
    ∧ (load_state "t" "u" (some 0)
        { primary := .missing, lastGood := .missing }).fs.primary ≠
      FileData.missing := by
  have hacq : acquire_file_lock STATE_LOCK_TIMEOUT_TICKS
      STATE_LOCK_STALE_TICKS (some 0) = (none, some 80) := by
    simpa using acquireFileLockGo_fresh 1800 80 0 (by norm_num)
  constructor
  · simp [load_state, hacq]
  · simp [load_state, _load_state_unlocked, json_load_file,
      _save_state_unlocked, atomic_write_text]

/-- C5 (amended): `load_state` and `save_state` *attempt* to acquire the
state lock and always release it when the operation finishes, but the
file operations run regardless of the outcome: when acquisition succeeds
they are lock-guarded (and the lock file is removed afterwards); when
acquisition times out they proceed without the lock. -/
theorem claim_C5_lock_scope (f1 f2 : Bool) (ts sid : String) (st : Doc)
    (l : Option Nat) (fs : StateFS) :
    ((load_state ts sid l fs).lockHeld =
      (acquire_file_lock STATE_LOCK_TIMEOUT_TICKS STATE_LOCK_STALE_TICKS
        l).1.isSome)
    ∧ ((load_state ts sid l fs).doc = (_load_state_unlocked ts sid fs).1 ∧
       (load_state ts sid l fs).fs = (_load_state_unlocked ts sid fs).2)
    ∧ ((load_state ts sid l fs).lockHeld = true →
        (load_state ts sid l fs).finalLock = none)
    ∧ ((save_state f1 f2 ts sid st l fs).lockHeld =
      (acquire_file_lock STATE_LOCK_TIMEOUT_TICKS STATE_LOCK_STALE_TICKS
        l).1.isSome)
    ∧ ((save_state f1 f2 ts sid st l fs).raised =
        (_save_state_unlocked f1 f2 ts sid st fs).raised ∧
       (save_state f1 f2 ts sid st l fs).fs =
        (_save_state_unlocked f1 f2 ts sid st fs).fs)
    ∧ ((save_state f1 f2 ts sid st l fs).lockHeld = true →
        (save_state f1 f2 ts sid st l fs).finalLock = none) := by
  have hrel : (acquire_file_lock STATE_LOCK_TIMEOUT_TICKS
      STATE_LOCK_STALE_TICKS l).1.isSome = true →
      ∀ r, r = acquire_file_lock STATE_LOCK_TIMEOUT_TICKS
        STATE_LOCK_STALE_TICKS l →
      (match release_file_lock r.1 r.2 with
        | .ok lf => lf
        | .error _ => r.2) = none := by
    intro h r hr
    have h1 : r.1 = some () := by
      rcases hx : r.1 with _ | u
      · exfalso
        rw [hr] at hx
        rw [hx] at h
        simp at h
      · rfl
    have h2 : r.2 = some 0 := by
      rw [hr]
      exact acquireFileLockGo_success_lock _ _ _ h
    rw [h1, h2]
    rfl
  refine ⟨by simp [load_state], ⟨by simp [load_state], by simp [load_state]⟩,
    ?_, by simp [save_state], ⟨by simp [save_state], by simp [save_state]⟩,
    ?_⟩
  · intro h
    simp only [load_state] at h ⊢
    exact hrel h _ rfl
  · intro h
    simp only [save_state] at h ⊢
    exact hrel h _ rfl

/-- Witness for C5 at a concrete input: with no pre-existing lock,
`load_state` acquires the lock (guarding its file operations) and the
lock file is gone afterwards. -/
theorem claim_C5_lock_scope_witness :
    (load_state "t" "u" none
      { primary := .missing, lastGood := .missing }).lockHeld = true
    ∧ (load_state "t" "u" none
        { primary := .missing, lastGood := .missing }).finalLock = none := by
  have h := claim_C5_lock_scope false false "t" "u" [] none
    { primary := .missing, lastGood := .missing }
  have hheld : (load_state "t" "u" none
      { primary := .missing, lastGood := .missing }).lockHeld = true := by
    rw [h.1]
    simp [acquire_file_lock, STATE_LOCK_TIMEOUT_TICKS,
      STATE_LOCK_STALE_TICKS, acquireFileLockGo]
  exact ⟨hheld, h.2.2.1 hheld⟩

-- Usage aggregation (C9).

theorem breakdownGo_filter (lines : List PLine)
    (hall : ∀ x ∈ lines, parsesToDict x = true) :
    ∀ b, breakdownGo lines b = breakdownGo (lines.filter isUsageLine) b := by
  induction lines with
  | nil => intro b; rfl
  | cons x rest ih =>
    intro b
    have hx := hall x (by simp)
    have hrest : ∀ y ∈ rest, parsesToDict y = true :=
      fun y hy => hall y (by simp [hy])
    match x with
    | .blank =>
      simpa [breakdownGo, List.filter_cons, isUsageLine] using ih hrest b
    | .malformed =>
      simpa [breakdownGo, List.filter_cons, isUsageLine] using ih hrest b
    | .parsed v =>
      match v with
      | .obj e =>
        by_cases ht : typeIsLlmUsage e
        · simpa [breakdownGo, stepParsed, List.filter_cons, isUsageLine, ht]
            using ih hrest (processUsageEvent e b)
        · have hskip : processUsageEvent e b = b := by
            simp [processUsageEvent, ht]
          simpa [breakdownGo, stepParsed, List.filter_cons, isUsageLine,
            ht, hskip] using ih hrest b
      | .null => simp [parsesToDict] at hx
      | .bool c => simp [parsesToDict] at hx
      | .num n => simp [parsesToDict] at hx
      | .str s => simp [parsesToDict] at hx
      | .arr xs => simp [parsesToDict] at hx

/-- C9 counterexample: a line holding the valid JSON array `[]` is
parseable and is not a usage event, so per the claim it must not affect
the totals; but `event.get` on a non-dict raises `AttributeError`, which
is outside the inner `except (JSONDecodeError, ValueError, TypeError)`
tuple, so the outer handler abandons aggregation and the following
well-formed usage line is silently dropped from the totals. -/
theorem counterexample_C9 :
    model_breakdown [PLine.parsed (.arr []),
      PLine.parsed (.obj [("type", JVal.str "llm_usage"),
        ("model", JVal.str "m"), ("cost", JVal.num 2)])] = []
    ∧ model_breakdown [PLine.parsed (.obj [("type", JVal.str "llm_usage"),
        ("model", JVal.str "m"), ("cost", JVal.num 2)])] =
      [(JVal.str "m", (⟨2, 1, 0, 0, 0⟩ : UsageStats))] :=
  ⟨rfl, rfl⟩

/-- C9 (amended): blank and malformed (unparsable) lines never cause a
failure and never affect the totals, and — provided every parseable line
is a JSON object, as every event written by the logger is — the totals
equal the aggregation over exactly the parseable lines whose `type` is
`llm_usage`.  (A parseable non-object line, however, aborts aggregation
at that point via an uncaught `AttributeError`, returning the totals
accumulated so far.) -/
theorem claim_C9_skips_malformed (lines : List PLine)
    (h : lines.all parsesToDict = true) :
    model_breakdown lines = model_breakdown (lines.filter isUsageLine)
    ∧ (∀ rest : List PLine, model_breakdown (.blank :: rest) =
        model_breakdown rest)
    ∧ (∀ rest : List PLine, model_breakdown (.malformed :: rest) =
        model_breakdown rest) :=
  ⟨breakdownGo_filter lines (by simpa [List.all_eq_true] using h) [],
    fun _ => rfl, fun _ => rfl⟩

/-- Witness for C9 at a concrete log: a blank line, an unparsable line
and a non-usage object do not disturb the single usage event's totals. -/
theorem claim_C9_skips_malformed_witness :
    model_breakdown [PLine.blank, PLine.malformed,
      PLine.parsed (.obj [("type", JVal.str "other")]),
      PLine.parsed (.obj [("type", JVal.str "llm_usage"),
        ("model", JVal.str "m"), ("cost", JVal.num 2)])] =
    model_breakdown ([PLine.blank, PLine.malformed,
      PLine.parsed (.obj [("type", JVal.str "other")]),
      PLine.parsed (.obj [("type", JVal.str "llm_usage"),
        ("model", JVal.str "m"), ("cost", JVal.num 2)])].filter isUsageLine) :=
  (claim_C9_skips_malformed [PLine.blank, PLine.malformed,
    PLine.parsed (.obj [("type", JVal.str "other")]),
    PLine.parsed (.obj [("type", JVal.str "llm_usage"),
      ("model", JVal.str "m"), ("cost", JVal.num 2)])] rfl).1

-- Status text (C7).

theorem mem_ite_nil_right {α : Type} (a : α) (c : Prop) [Decidable c]
    (l : List α) : (a ∈ if c then l else []) ↔ c ∧ a ∈ l := by
  by_cases h : c <;> simp [h]

theorem mem_ite_nil_left {α : Type} (a : α) (c : Prop) [Decidable c]
    (l : List α) : (a ∈ if c then [] else l) ↔ ¬c ∧ a ∈ l := by
  by_cases h : c <;> simp [h]

/-- C7: `status_text` emits the anomaly warning line
(`queue_warning: running>0 while busy=0`) exactly when the running map is
non-empty while `busy_count` — the number of worker slots whose
`busy_task_id` is not `None` — is zero; in particular a report with one
running entry and no busy workers contains the warning line. -/
theorem claim_C7_status_warning (st : Doc) (models : Breakdown)
    (workers : List Worker) (pending : List JVal)
    (running : List (String × JVal)) (softT hardT : Int) :
    (StatusLine.queueWarning ∈
        statusLines st models workers pending running softT hardT ↔
      running ≠ [] ∧ busyCount workers = 0)
    ∧ StatusLine.queueWarning ∈
        statusLines [] [] [] [] [("t1", JVal.obj [])] 60 120 := by
  constructor
  · simp only [statusLines, List.mem_append, List.mem_cons,
      mem_ite_nil_right, mem_ite_nil_left, List.mem_map,
      List.mem_filterMap, List.mem_singleton]
    simp [List.isEmpty_iff, Option.ite_none_right_eq_some]
  · simp [statusLines, busyCount]

end Ouroboros
